import Mathlib

/-!
Shallow embedding of the z21-gateway orchestration core (src/gateway.go).

External collaborators (the z21 device transport, the NATS bus, JSON
codec outcomes, and the wall clock) are modelled as explicit parameters:
a device round-trip outcome is an `Except String Z21Msg`, a JSON decode
outcome is an `Except String Z21Msg`, a timestamp is a `String` argument.
Each gateway function is translated from its Go body; the list of device
requests a function issues (with the timeout it passed to the transport)
is returned alongside its result so that call/no-call and timeout claims
can be stated.
-/

/-- Go constant `MaxConcurrentCommands = 4` (gateway.go line 20). -/
def MaxConcurrentCommands : Nat := 4

/-- Go constant `RequestTimeout = 500 * time.Millisecond`, in milliseconds
(gateway.go line 19). -/
def RequestTimeout : Nat := 500

/-- The z21 library's serializable messages, as the gateway distinguishes
them.  The library itself is external to the repository; the gateway only
constructs `SerialNumber` (zero value, for the probe), `CanDetector`
(decoded from a command payload; its content is opaque to the gateway and
modelled as a `Nat`), and `BroadcastFlags` (carrying a 32-bit flag word).
Any other message the transport may return is `other`. -/
inductive Z21Msg
  | serialNumber (n : Nat)
  | canDetector (payload : Nat)
  | broadcastFlags (flags : Nat)
  | other (tag : String)
deriving DecidableEq, Repr

/-- A device round-trip issued through `zc.SendRcv`, recording the request
and the deadline the gateway attached to the context it passed: `some d`
when the call site wrapped the context in `context.WithTimeout(_, d)`,
`none` when it passed a context with no deadline. -/
structure DeviceCall where
  request : Z21Msg
  timeoutMs : Option Nat
deriving DecidableEq, Repr

/-- Go struct `StatusMsg` (gateway.go lines 36-40). -/
structure StatusMsg where
  Reachable : Bool
  Serial : String
  TS : String
deriving DecidableEq, Repr

/-- Go struct `CmdReply` (gateway.go lines 47-53).  `Data` is `none` when
the Go interface field is nil. -/
structure CmdReply where
  type : String
  Ok : Bool
  Data : Option Z21Msg
  Error : String
  TS : String
deriving DecidableEq, Repr

/-- An inbound NATS message as the handler sees it: subject, raw payload,
and the caller-supplied reply address (empty string when absent, as in
`nats.Msg.Reply`). -/
structure NatsMsg where
  Subject : String
  Data : String
  Reply : String
deriving DecidableEq, Repr

/-- The discover command subject `z21.<name>.cmd.can.discover`
(gateway.go lines 250 and 305). -/
def discoverSubject (name : String) : String :=
  "z21." ++ name ++ ".cmd.can.discover"

/-- The periodic status subject `z21.<name>.status` (gateway.go line 143). -/
def statusSubject (name : String) : String :=
  "z21." ++ name ++ ".status"

/-- The fallback reply subject `z21.<name>.reply` (gateway.go line 287). -/
def fallbackReplySubject (name : String) : String :=
  "z21." ++ name ++ ".reply"

/-- `checkReachability` (gateway.go lines 157-180).  `res` is the outcome
of `zc.SendRcv(ctx, &z21.SerialNumber{})` under the 500ms deadline; `now`
is the formatted wall-clock time.  Returns the StatusMsg the Go function
returns, paired with the device call it issued: the zero-value
SerialNumber request under a context wrapped in
`context.WithTimeout(g.ctx, RequestTimeout)`.  `reachable` and `serial`
start false and empty and are overwritten only when the round-trip
succeeded and the response type-asserts to `*z21.SerialNumber`, whose
numeric field is formatted with `%d`. -/
def checkReachability (res : Except String Z21Msg) (now : String) :
    StatusMsg × DeviceCall :=
  let rs : Bool × String :=
    match res with
    | .ok (.serialNumber n) => (true, Nat.repr n)
    | _ => (false, "")
  ({ Reachable := rs.1, Serial := rs.2, TS := now },
   { request := .serialNumber 0, timeoutMs := some RequestTimeout })

/-- Escape a string for inclusion in a JSON string literal, as Go's
encoding/json does for quote and backslash (the only characters the
gateway's status fields can need). -/
def jsonEscapeChars : List Char → String
  | [] => ""
  | c :: t =>
      (if c = '"' then "\\\""
       else if c = '\\' then "\\\\"
       else String.singleton c) ++ jsonEscapeChars t

/-- Escape applied to a whole string. -/
def jsonEscape (s : String) : String :=
  jsonEscapeChars s.data

/-- A JSON string literal. -/
def jsonStr (s : String) : String :=
  "\"" ++ jsonEscape s ++ "\""

/-- A JSON scalar value, for stating the marshalled shape of `StatusMsg`
at the key/value level. -/
inductive JsonValue
  | jbool (b : Bool)
  | jstr (s : String)
deriving DecidableEq, Repr

/-- The key/value pairs Go's `json.Marshal` produces for `StatusMsg`,
in field order.  The `Serial` field's struct tag is
`json:"serial:omitempty"`: everything before the first comma in a json
tag is the key name, and a colon is a legal tag-name character, so the
key is the literal string "serial:omitempty" and no `omitempty` option
is in effect — the field is emitted even when empty. -/
def statusMsgJsonFields (m : StatusMsg) : List (String × JsonValue) :=
  [("reachable", .jbool m.Reachable),
   ("serial:omitempty", .jstr m.Serial),
   ("ts", .jstr m.TS)]

/-- Render one key/value pair. -/
def jsonFieldToString (f : String × JsonValue) : String :=
  jsonStr f.1 ++ ":" ++
    match f.2 with
    | .jbool b => if b then "true" else "false"
    | .jstr s => jsonStr s

/-- The byte string Go's `json.Marshal` produces for `StatusMsg`
(marshalling a struct of bool and string fields cannot fail). -/
def statusMsgToJson (m : StatusMsg) : String :=
  "\x7b" ++ String.intercalate "," ((statusMsgJsonFields m).map jsonFieldToString)
    ++ "\x7d"

/-- The reachability/channel state the heartbeat loop threads between
probes: the `isOnline` atomic and the content of the one-slot
`onlineStatus` channel (`none` when the channel is empty). -/
structure HeartbeatState where
  isOnline : Bool
  onlineStatus : Option Bool
deriving DecidableEq, Repr

/-- Result of one probe tick: the updated state and the publishes issued
as (subject, payload) pairs. -/
structure HeartbeatOutcome where
  state : HeartbeatState
  published : List (String × String)
deriving DecidableEq, Repr

/-- `doHeartbeatCheck` (gateway.go lines 122-155).  One probe tick:
computes the status, and when the reachable flag differs from the stored
`isOnline` value, stores the new flag and attempts a non-blocking send on
the single-slot `onlineStatus` channel (the `select`/`default`: the value
lands only when the slot is empty, otherwise it is dropped).  The status
is then marshalled — which cannot fail for this struct — and published
once on `z21.<name>.status`; a publish error is logged and otherwise
ignored, so the publish is issued exactly once either way. -/
def doHeartbeatCheck (name : String) (s : HeartbeatState)
    (res : Except String Z21Msg) (now : String) : HeartbeatOutcome :=
  let status := (checkReachability res now).1
  let s1 : HeartbeatState :=
    if status.Reachable ≠ s.isOnline then
      { isOnline := status.Reachable,
        onlineStatus :=
          match s.onlineStatus with
          | none => some status.Reachable
          | some b => some b }
    else s
  { state := s1,
    published := [(statusSubject name, statusMsgToJson status)] }

/-- `handleError` (gateway.go lines 320-329): the reply for a payload
that failed to deserialize.  Only `Ok`, `Error` and `TS` are set; the
error text is `invalid message: ` followed by the deserialization
error's string. -/
def handleError (e : String) (now : String) : CmdReply :=
  { type := "", Ok := false, Data := none,
    Error := "invalid message: " ++ e, TS := now }

/-- `handleRequest` (gateway.go lines 331-353).  Forwards the decoded
request to the device under `context.WithTimeout(g.ctx, RequestTimeout)`;
`devResp` is that round-trip's outcome.  The reply is built with only
`TS` set, then `Ok`/`Error` on failure or `Ok`/`Data` on success; the
`type` field is never assigned and keeps its zero value.  Returns the
reply and the single device call issued. -/
def handleRequest (req : Z21Msg) (devResp : Except String Z21Msg)
    (now : String) : CmdReply × List DeviceCall :=
  let call : DeviceCall := { request := req, timeoutMs := some RequestTimeout }
  match devResp with
  | .error e =>
      ({ type := "", Ok := false, Data := none, Error := e, TS := now }, [call])
  | .ok resp =>
      ({ type := "", Ok := true, Data := some resp, Error := "", TS := now }, [call])

/-- `doCmdRequest` (gateway.go lines 300-318).  `parseResult` is the
outcome of `json.Unmarshal(msg.Data, &z21.CanDetector{})`; `devResp` the
outcome of the forwarded round-trip, consulted only when one is issued.
On the discover subject: a decode failure short-circuits to
`handleError` with no device call; a decoded request goes to
`handleRequest`.  Any other subject is logged as unknown and answered
with the zero-value `CmdReply{}` — no field set, not even the
timestamp — again with no device call. -/
def doCmdRequest (name : String) (msg : NatsMsg)
    (parseResult : Except String Z21Msg) (devResp : Except String Z21Msg)
    (now : String) : CmdReply × List DeviceCall :=
  if msg.Subject = discoverSubject name then
    match parseResult with
    | .error e => (handleError e now, [])
    | .ok req => handleRequest req devResp now
  else
    ({ type := "", Ok := false, Data := none, Error := "", TS := "" }, [])

/-- The subject a reply is published to (gateway.go lines 281-288): the
message's reply address when the caller supplied one, else the fallback
`z21.<name>.reply`. -/
def replySubject (name : String) (msg : NatsMsg) : String :=
  if msg.Reply ≠ "" then msg.Reply else fallbackReplySubject name

/-- `handleCmdMessage` (gateway.go lines 264-298), as the list of reply
publications the handling unit issues, as (subject, reply) pairs.
`acquired` is whether the opening `select` obtained a semaphore slot
(when shutdown wins the race the handler returns at once, publishing
nothing); `marshalOk` is whether `json.Marshal(reply)` succeeded — the
reply's `Data` field holds an arbitrary `z21.Serializable`, so
marshalling is fallible, and on failure the handler returns without
publishing.  Otherwise exactly one publish is issued, to
`replySubject`; a publish error is only logged. -/
def handleCmdMessage (name : String) (msg : NatsMsg)
    (parseResult : Except String Z21Msg) (devResp : Except String Z21Msg)
    (marshalOk : Bool) (acquired : Bool) (now : String) :
    List (String × CmdReply) :=
  if acquired then
    let reply := (doCmdRequest name msg parseResult devResp now).1
    if marshalOk then [(replySubject name msg, reply)] else []
  else []

/-- `subscribeBroadcast` (gateway.go lines 238-247).  The flag word is
built as `Mask32(SYSTEM_UPDATES)` then or-ed with
`Mask32(CAN_DETECTOR_UPDATES)`; the two mask values live in the external
z21 library and are taken as parameters.  The round-trip is issued under
`ctx := context.Background()` — no `WithTimeout` wrapper, hence no
deadline — and its error outcome `devResp` is only logged: exactly one
call is issued regardless. -/
def subscribeBroadcast (sysMask detMask : Nat)
    (devResp : Except String Z21Msg) : List DeviceCall :=
  let flags := Nat.lor sysMask detMask
  match devResp with
  | .error _ => [{ request := .broadcastFlags flags, timeoutMs := none }]
  | .ok _ => [{ request := .broadcastFlags flags, timeoutMs := none }]

/-- One reaction of `monitorOnlineStatus` (gateway.go lines 182-200) to a
value received from the `onlineStatus` channel: on `true` it calls
`subscribeBroadcast`; on `false` it only logs.  Returns the device calls
issued. -/
def monitorOnlineStep (sysMask detMask : Nat) (isOnline : Bool)
    (devResp : Except String Z21Msg) : List DeviceCall :=
  if isOnline then subscribeBroadcast sysMask detMask devResp else []

/-!
Transition system for the Command Dispatcher's admission control.
`natsCommandsLoop` spawns one goroutine per inbound message
(`go g.handleCmdMessage(m)`, gateway.go line 255); each goroutine first
races `g.sem <- struct{}{}` against `g.ctx.Done()` (lines 265-270) where
`sem` is a channel of capacity `MaxConcurrentCommands` (line 68), and a
goroutine that acquired a slot releases it in a deferred receive on every
return path — after a reply-marshal failure, after a publish failure, or
after a successful publish (line 267).
-/

/-- The phase of one handler goroutine: spawned and blocked at the
acquire `select`; holding a semaphore slot while it contacts the device
and publishes; or returned. -/
inductive HandlerPhase
  | started
  | holding
  | exited
deriving DecidableEq, Repr

/-- How a slot-holding handler returned: `json.Marshal(reply)` failed
(return at gateway.go line 278), `nc.Publish` failed (error logged,
line 289-293, then return), or the publish succeeded.  The deferred
semaphore receive runs in every case. -/
inductive ReplyOutcome
  | marshalFailed
  | publishFailed
  | publishOk
deriving DecidableEq, Repr

/-- The dispatcher's concurrency state: the phase of every handler
goroutine spawned so far, and whether the shared context has been
cancelled. -/
structure DispState where
  handlers : List HandlerPhase
  shutdown : Bool
deriving DecidableEq, Repr

/-- The number of semaphore slots currently held: the handlers in phase
`holding`.  This is the number of dispatcher-originated device requests
that can be in flight. -/
def countHolding : List HandlerPhase → Nat
  | [] => 0
  | .holding :: t => countHolding t + 1
  | .started :: t => countHolding t
  | .exited :: t => countHolding t

/-- Slots held in a dispatcher state. -/
def slotsHeld (s : DispState) : Nat := countHolding s.handlers

/-- The dispatcher's initial state: no handlers, not shut down. -/
def dispInit : DispState := { handlers := [], shutdown := false }

/-- One interleaving step of the dispatcher.  `spawn`: a message arrives
and a handler goroutine starts.  `acquire`: a started handler's send on
`sem` completes — possible only while fewer than `MaxConcurrentCommands`
slots are held, since `sem` has that capacity.  `abandon`: after
cancellation, a started handler may take the `ctx.Done()` branch and
return without a slot.  `finish`: a holding handler returns — by any of
the three outcomes — and its deferred receive frees the slot.
`signalShutdown`: `Stop` cancels the shared context. -/
inductive DispStep : DispState → DispState → Prop
  | spawn (s : DispState) :
      DispStep s { s with handlers := s.handlers ++ [.started] }
  | acquire (s : DispState) (i : Nat) (hi : i < s.handlers.length)
      (hp : s.handlers.get ⟨i, hi⟩ = .started)
      (hc : slotsHeld s < MaxConcurrentCommands) :
      DispStep s { s with handlers := s.handlers.set i .holding }
  | abandon (s : DispState) (i : Nat) (hi : i < s.handlers.length)
      (hp : s.handlers.get ⟨i, hi⟩ = .started)
      (hsd : s.shutdown = true) :
      DispStep s { s with handlers := s.handlers.set i .exited }
  | finish (s : DispState) (i : Nat) (hi : i < s.handlers.length)
      (hp : s.handlers.get ⟨i, hi⟩ = .holding) (o : ReplyOutcome) :
      DispStep s { s with handlers := s.handlers.set i .exited }
  | signalShutdown (s : DispState) :
      DispStep s { s with shutdown := true }

/-- States reachable from the initial dispatcher state. -/
def DispReachable (s : DispState) : Prop :=
  Relation.ReflTransGen DispStep dispInit s

theorem countHolding_append (l1 l2 : List HandlerPhase) :
    countHolding (l1 ++ l2) = countHolding l1 + countHolding l2 := by
  induction l1 with
  | nil => simp [countHolding]
  | cons h t ih =>
      cases h <;> simp [countHolding, ih]
      omega

theorem countHolding_set (l : List HandlerPhase) (i : Nat)
    (hi : i < l.length) (b : HandlerPhase) :
    countHolding (l.set i b) + countHolding [l.get ⟨i, hi⟩] =
      countHolding l + countHolding [b] := by
  induction l generalizing i with
  | nil => simp at hi
  | cons h t ih =>
      cases i with
      | zero =>
          cases h <;> cases b <;> simp [countHolding]
      | succ j =>
          have hj : j < t.length := by simpa using hi
          have ih2 := ih j hj
          simp only [List.get_eq_getElem] at ih2 ⊢
          simp only [List.set, List.getElem_cons_succ]
          cases h <;> simp only [countHolding] <;> omega

theorem dispStep_preserves_bound (s s' : DispState) (h : DispStep s s')
    (hb : slotsHeld s ≤ MaxConcurrentCommands) :
    slotsHeld s' ≤ MaxConcurrentCommands := by
  cases h with
  | spawn =>
      simp only [slotsHeld] at hb ⊢
      rw [countHolding_append]
      simpa [countHolding] using hb
  | acquire i hi hp hc =>
      have hset := countHolding_set s.handlers i hi .holding
      rw [hp] at hset
      simp only [slotsHeld] at hc ⊢
      simp only [countHolding] at hset
      omega
  | abandon i hi hp hsd =>
      have hset := countHolding_set s.handlers i hi .exited
      rw [hp] at hset
      simp only [slotsHeld] at hb ⊢
      simp only [countHolding] at hset
      omega
  | finish i hi hp o =>
      have hset := countHolding_set s.handlers i hi .exited
      rw [hp] at hset
      simp only [slotsHeld] at hb ⊢
      simp only [countHolding] at hset
      omega
  | signalShutdown =>
      simpa [slotsHeld] using hb

/-- Claim C1: at every instant at most `MaxConcurrentCommands` (4)
dispatcher-originated device requests are in flight: in every state the
dispatcher can reach, the number of handlers holding a semaphore slot is
at most 4 — each handler acquires a slot before contacting the device and
the deferred receive releases it on every return path, including the
reply-marshal-failure and publish-failure paths (`finish` with any
`ReplyOutcome`). -/
theorem C1_bounded_concurrency (s : DispState) (h : DispReachable s) :
    slotsHeld s ≤ MaxConcurrentCommands := by
  induction h with
  | refl => simp [slotsHeld, dispInit, countHolding]
  | tail hr hstep ih => exact dispStep_preserves_bound _ _ hstep ih

/-- Witness for C1: a concrete run — a message arrives, its handler
acquires a slot and finishes after a marshal failure — stays within the
bound. -/
theorem C1_bounded_concurrency_witness :
    slotsHeld { handlers := [HandlerPhase.exited], shutdown := false } ≤
      MaxConcurrentCommands := by
  have h1 : DispStep dispInit { handlers := [HandlerPhase.started], shutdown := false } :=
    DispStep.spawn dispInit
  have h2 : DispStep { handlers := [HandlerPhase.started], shutdown := false }
      { handlers := [HandlerPhase.holding], shutdown := false } :=
    DispStep.acquire _ 0 (by decide) rfl (by decide)
  have h3 : DispStep { handlers := [HandlerPhase.holding], shutdown := false }
      { handlers := [HandlerPhase.exited], shutdown := false } :=
    DispStep.finish _ 0 (by decide) rfl ReplyOutcome.marshalFailed
  exact C1_bounded_concurrency _
    (Relation.ReflTransGen.tail
      (Relation.ReflTransGen.tail
        (Relation.ReflTransGen.tail Relation.ReflTransGen.refl h1) h2) h3)

/-- Claim C2 as stated is false: a handler that acquired a slot publishes
no reply when `json.Marshal(reply)` fails — here a handler with a slot
(`acquired = true`) and a failing marshal publishes zero replies, not
exactly one. -/
theorem C2_counterexample :
    (handleCmdMessage "main"
        { Subject := discoverSubject "main", Data := "x", Reply := "inbox.1" }
        (Except.ok (Z21Msg.canDetector 7)) (Except.ok (Z21Msg.canDetector 7))
        false true "t").length ≠ 1 := by
  decide

/-- Claim C2 (amended): a handler that acquires a slot and whose reply
marshals successfully publishes exactly one reply, to the caller-supplied
reply address when present, else to the fallback subject
`z21.<name>.reply`. -/
theorem C2_exactly_one_reply (name : String) (msg : NatsMsg)
    (parseResult devResp : Except String Z21Msg) (now : String)
    (acquired marshalOk : Bool)
    (hacq : acquired = true) (hm : marshalOk = true) :
    (handleCmdMessage name msg parseResult devResp marshalOk acquired now).length = 1 ∧
    (handleCmdMessage name msg parseResult devResp marshalOk acquired now).map Prod.fst =
      [replySubject name msg] ∧
    (msg.Reply ≠ "" → replySubject name msg = msg.Reply) ∧
    (msg.Reply = "" → replySubject name msg = fallbackReplySubject name) := by
  subst hacq hm
  refine ⟨rfl, rfl, ?_, ?_⟩
  · intro h
    simp [replySubject, h]
  · intro h
    simp [replySubject, h]

/-- Witness for C2 (amended): a concrete message carrying the reply
address `inbox.7` gets exactly one reply, published to `inbox.7`. -/
theorem C2_exactly_one_reply_witness :
    (handleCmdMessage "main"
        { Subject := discoverSubject "main", Data := "x", Reply := "inbox.7" }
        (Except.ok (Z21Msg.canDetector 7)) (Except.ok (Z21Msg.canDetector 7))
        true true "t").map Prod.fst = ["inbox.7"] := by
  have h := C2_exactly_one_reply "main"
    { Subject := discoverSubject "main", Data := "x", Reply := "inbox.7" }
    (Except.ok (Z21Msg.canDetector 7)) (Except.ok (Z21Msg.canDetector 7))
    "t" true true rfl rfl
  rw [h.2.1, h.2.2.1 (by decide)]

/-- Claim C3: on the discover subject, a payload that fails to
deserialize yields the error reply `ok=false` with error string
`invalid message: <deserialization error>` (and the timestamp), and no
device call is issued for that message. -/
theorem C3_malformed_short_circuits (name : String) (msg : NatsMsg)
    (devResp : Except String Z21Msg) (e now : String)
    (hsub : msg.Subject = discoverSubject name) :
    doCmdRequest name msg (Except.error e) devResp now =
      ({ type := "", Ok := false, Data := none,
         Error := "invalid message: " ++ e, TS := now }, []) := by
  simp [doCmdRequest, hsub, handleError]

/-- Witness for C3: a concrete malformed discover payload produces the
error reply and an empty device-call list. -/
theorem C3_malformed_short_circuits_witness :
    doCmdRequest "main"
        { Subject := discoverSubject "main", Data := "not json", Reply := "" }
        (Except.error "unexpected end of JSON input")
        (Except.ok (Z21Msg.serialNumber 1)) "t" =
      ({ type := "", Ok := false, Data := none,
         Error := "invalid message: unexpected end of JSON input", TS := "t" }, []) := by
  exact C3_malformed_short_circuits "main"
    { Subject := discoverSubject "main", Data := "not json", Reply := "" }
    (Except.ok (Z21Msg.serialNumber 1)) "unexpected end of JSON input" "t" rfl

/-- Claim C4: every probe tick publishes exactly one StatusMessage (the
marshalled probe result on the status subject) whether or not the state
changed; the transition channel receives the new flag exactly when the
reachable flag differs from the stored state and the slot is empty; when
the flag is unchanged nothing is touched; and a pending transition is
never overwritten (drop-on-full). -/
theorem C4_probe_tick (name : String) (s : HeartbeatState)
    (res : Except String Z21Msg) (now : String) :
    (doHeartbeatCheck name s res now).published.length = 1 ∧
    (doHeartbeatCheck name s res now).published =
      [(statusSubject name, statusMsgToJson (checkReachability res now).1)] ∧
    ((checkReachability res now).1.Reachable ≠ s.isOnline → s.onlineStatus = none →
      (doHeartbeatCheck name s res now).state.onlineStatus =
        some (checkReachability res now).1.Reachable) ∧
    ((checkReachability res now).1.Reachable = s.isOnline →
      (doHeartbeatCheck name s res now).state = s) ∧
    (∀ b, s.onlineStatus = some b →
      (doHeartbeatCheck name s res now).state.onlineStatus = some b) := by
  refine ⟨?_, ?_, ?_, ?_, ?_⟩
  · simp [doHeartbeatCheck]
  · simp [doHeartbeatCheck]
  · intro hne hnone
    simp [doHeartbeatCheck, hne, hnone]
  · intro heq
    simp [doHeartbeatCheck, heq]
  · intro b hb
    by_cases hd : (checkReachability res now).1.Reachable = s.isOnline
    · simp [doHeartbeatCheck, hd, hb]
    · simp [doHeartbeatCheck, hd, hb]

/-- Witness for C4: with the device offline in the stored state and an
empty channel, a successful probe publishes one status message and pushes
`true` into the channel. -/
theorem C4_probe_tick_witness :
    (doHeartbeatCheck "main" { isOnline := false, onlineStatus := none }
        (Except.ok (Z21Msg.serialNumber 12345)) "t").state.onlineStatus = some true ∧
    (doHeartbeatCheck "main" { isOnline := false, onlineStatus := none }
        (Except.ok (Z21Msg.serialNumber 12345)) "t").published.length = 1 := by
  have h := C4_probe_tick "main" { isOnline := false, onlineStatus := none }
    (Except.ok (Z21Msg.serialNumber 12345)) "t"
  exact ⟨h.2.2.1 (by decide) rfl, h.1⟩

/-- Claim C5: the probe classifies exactly: a successful round-trip whose
response is a SerialNumber yields `reachable=true` with the serial
formatted from the response; every other outcome — transport error or a
response of a different type — yields `reachable=false` with empty
serial. -/
theorem C5_checkReachability_classifies (res : Except String Z21Msg) (now : String) :
    (∀ n, res = Except.ok (Z21Msg.serialNumber n) →
      (checkReachability res now).1 =
        { Reachable := true, Serial := Nat.repr n, TS := now }) ∧
    ((∀ n, res ≠ Except.ok (Z21Msg.serialNumber n)) →
      (checkReachability res now).1 =
        { Reachable := false, Serial := "", TS := now }) := by
  constructor
  · intro n h
    subst h
    rfl
  · intro h
    cases res with
    | error e => rfl
    | ok m =>
        cases m with
        | serialNumber n => exact absurd rfl (h n)
        | canDetector p => rfl
        | broadcastFlags f => rfl
        | other t => rfl

/-- Witness for C5: a round-trip answered with serial number 12345 is
classified reachable with serial "12345"; a timed-out round-trip is
classified unreachable with empty serial. -/
theorem C5_checkReachability_classifies_witness :
    (checkReachability (Except.ok (Z21Msg.serialNumber 12345)) "t").1 =
      { Reachable := true, Serial := "12345", TS := "t" } ∧
    (checkReachability (Except.error "timeout") "t").1 =
      { Reachable := false, Serial := "", TS := "t" } := by
  constructor
  · exact (C5_checkReachability_classifies
      (Except.ok (Z21Msg.serialNumber 12345)) "t").1 12345 rfl
  · exact (C5_checkReachability_classifies (Except.error "timeout") "t").2
      (fun n hn => Except.noConfusion hn)

/-- Claim C6 as stated is false: the subscription-arming round-trip is
issued under `context.Background()` with no deadline — its recorded
timeout is not `RequestTimeout`. -/
theorem C6_counterexample :
    (subscribeBroadcast 1 2 (Except.ok (Z21Msg.other "resp"))).map
        DeviceCall.timeoutMs ≠ [some RequestTimeout] := by
  decide

/-- Claim C6 (amended): the reachability probe and the forwarded command
request both use the fixed `RequestTimeout` (500ms); the
subscription-arming request alone is issued with no deadline. -/
theorem C6_timeout_policy (res devResp : Except String Z21Msg)
    (req : Z21Msg) (now : String) (sysMask detMask : Nat) :
    (checkReachability res now).2.timeoutMs = some RequestTimeout ∧
    (handleRequest req devResp now).2.map DeviceCall.timeoutMs =
      [some RequestTimeout] ∧
    (subscribeBroadcast sysMask detMask devResp).map DeviceCall.timeoutMs =
      [none] := by
  refine ⟨rfl, ?_, ?_⟩
  · cases devResp <;> rfl
  · cases devResp <;> rfl

/-- Claim C7 as stated is false: for a successfully deserialized request
whose envelope carried type "discover", the reply's type tag is the empty
string, not "discover" — `handleRequest` never assigns the `Type`
field. -/
theorem C7_counterexample :
    (doCmdRequest "main"
        { Subject := discoverSubject "main",
          Data := "\x7b\"type\":\"discover\"\x7d", Reply := "" }
        (Except.ok (Z21Msg.canDetector 7)) (Except.ok (Z21Msg.serialNumber 1))
        "t").1.type ≠ "discover" := by
  decide

/-- Claim C7 (amended): every reply produced for a successfully
deserialized request carries an empty `type` tag regardless of the
request, alongside the success flag, the response payload or the error
string, and the timestamp. -/
theorem C7_reply_shape (name : String) (msg : NatsMsg) (req : Z21Msg)
    (devResp : Except String Z21Msg) (now : String) :
    (doCmdRequest name msg (Except.ok req) devResp now).1.type = "" ∧
    (∀ e, devResp = Except.error e → msg.Subject = discoverSubject name →
      (doCmdRequest name msg (Except.ok req) devResp now).1 =
        { type := "", Ok := false, Data := none, Error := e, TS := now }) ∧
    (∀ resp, devResp = Except.ok resp → msg.Subject = discoverSubject name →
      (doCmdRequest name msg (Except.ok req) devResp now).1 =
        { type := "", Ok := true, Data := some resp, Error := "", TS := now }) := by
  refine ⟨?_, ?_, ?_⟩
  · by_cases hsub : msg.Subject = discoverSubject name
    · cases devResp <;> simp [doCmdRequest, hsub, handleRequest]
    · simp [doCmdRequest, hsub]
  · intro e he hsub
    subst he
    simp [doCmdRequest, hsub, handleRequest]
  · intro resp hr hsub
    subst hr
    simp [doCmdRequest, hsub, handleRequest]

/-- Witness for C7 (amended): a concrete successful round-trip yields the
reply with empty type, `ok=true`, the device payload and the
timestamp. -/
theorem C7_reply_shape_witness :
    (doCmdRequest "main"
        { Subject := discoverSubject "main",
          Data := "\x7b\"type\":\"can.discover\"\x7d", Reply := "" }
        (Except.ok (Z21Msg.canDetector 7)) (Except.ok (Z21Msg.canDetector 9))
        "t").1 =
      { type := "", Ok := true, Data := some (Z21Msg.canDetector 9),
        Error := "", TS := "t" } := by
  exact (C7_reply_shape "main"
    { Subject := discoverSubject "main",
      Data := "\x7b\"type\":\"can.discover\"\x7d", Reply := "" }
    (Z21Msg.canDetector 7) (Except.ok (Z21Msg.canDetector 9)) "t").2.2
    (Z21Msg.canDetector 9) rfl rfl

/-- Claim C8 is right and the code is wrong: the struct tag
`json:"serial:omitempty"` uses a colon where a comma was intended, so the
marshalled key is the literal "serial:omitempty", not "serial", and the
field is not omitted when empty.  At the spec's own scenario — a probe
succeeding with serial "12345" — the published object's keys are
"reachable", "serial:omitempty" and "ts", and "serial" is not among
them. -/
theorem C8_serial_key_typo :
    (statusMsgJsonFields { Reachable := true, Serial := "12345", TS := "t" }).map
        Prod.fst = ["reachable", "serial:omitempty", "ts"] ∧
    "serial" ∉ (statusMsgJsonFields
        { Reachable := true, Serial := "12345", TS := "t" }).map Prod.fst ∧
    statusMsgToJson { Reachable := true, Serial := "12345", TS := "t" } =
      "\x7b\"reachable\":true,\"serial:omitempty\":\"12345\",\"ts\":\"t\"\x7d" := by
  refine ⟨rfl, by decide, by decide⟩

/-- Claim C9: a consumed `online` transition issues exactly one device
configuration request whose flag word is the bitwise union of the
system-updates mask and the detector-updates mask — whether or not the
round-trip errors (the error is only logged, never retried) — and a
consumed `offline` transition issues no device request. -/
theorem C9_arming (sysMask detMask : Nat) (devResp : Except String Z21Msg) :
    monitorOnlineStep sysMask detMask true devResp =
      [{ request := Z21Msg.broadcastFlags (Nat.lor sysMask detMask),
         timeoutMs := none }] ∧
    monitorOnlineStep sysMask detMask false devResp = [] := by
  cases devResp <;> exact ⟨rfl, rfl⟩

/-- Claim C10: a command message on any subject other than the discover
subject is answered with the zero-value reply — `ok=false`, empty error,
empty type and empty timestamp — and no device call, while both discover
reply paths (decode failure and forwarded request) always set the
timestamp. -/
theorem C10_unknown_subject_zero_reply (name : String) (msg : NatsMsg)
    (parseResult devResp : Except String Z21Msg) (now : String)
    (h : msg.Subject ≠ discoverSubject name) :
    doCmdRequest name msg parseResult devResp now =
      ({ type := "", Ok := false, Data := none, Error := "", TS := "" }, []) ∧
    (∀ d r e, (doCmdRequest name
        { Subject := discoverSubject name, Data := d, Reply := r }
        (Except.error e) devResp now).1.TS = now) ∧
    (∀ d r req, (doCmdRequest name
        { Subject := discoverSubject name, Data := d, Reply := r }
        (Except.ok req) devResp now).1.TS = now) := by
  refine ⟨?_, ?_, ?_⟩
  · simp [doCmdRequest, h]
  · intro d r e
    simp [doCmdRequest, handleError]
  · intro d r req
    cases devResp <;> simp [doCmdRequest, handleRequest]

/-- Witness for C10: a concrete message on a non-discover subject gets
the zero-value reply with empty timestamp, and a concrete malformed
discover message gets a reply stamped with the current time. -/
theorem C10_unknown_subject_zero_reply_witness :
    doCmdRequest "main" { Subject := "z21.main.cmd.bogus", Data := "x", Reply := "" }
        (Except.ok (Z21Msg.canDetector 7)) (Except.ok (Z21Msg.canDetector 9)) "t" =
      ({ type := "", Ok := false, Data := none, Error := "", TS := "" }, []) ∧
    (doCmdRequest "main"
        { Subject := discoverSubject "main", Data := "x", Reply := "" }
        (Except.error "bad") (Except.ok (Z21Msg.canDetector 9)) "t").1.TS = "t" := by
  have h := C10_unknown_subject_zero_reply "main"
    { Subject := "z21.main.cmd.bogus", Data := "x", Reply := "" }
    (Except.ok (Z21Msg.canDetector 7)) (Except.ok (Z21Msg.canDetector 9)) "t"
    (by decide)
  exact ⟨h.1, h.2.1 "x" "" "bad"⟩
